import Mathlib

/-
Verification of the REHAU NEA SMART 2 MQTT bridge parsers and logger
against their natural-language specification.

The development shallowly embeds the TypeScript sources:
  - src/parsers/index.ts      (InstallationDataParser, installation-data-parser)
  - src/parsers/user-data-parser.ts (UserDataParser)
  - src/logger.ts             (redactSensitiveData)
and, for the state-reconciliation invariant whose implementation
(climate-controller.ts) is not part of the parser sources, a model built
from the specification's merge rules.

JavaScript values are modelled as JSON trees (`JsValue`); `undefined` is
represented by `Option.none` at property-access results.  JS numbers are
modelled as exact rationals, `Math.round` as floor(x + 1/2) (JS rounds
half toward positive infinity).  Thrown `Error` objects are modelled as a
name/message pair returned through `Except`.
-/

/-- A JavaScript/JSON value as received from the cloud API. -/
inductive JsValue where
  | null
  | bool (b : Bool)
  | num (q : ℚ)
  | str (s : String)
  | arr (elems : List JsValue)
  | obj (fields : List (String × JsValue))

/-- The fields reachable by string-keyed property access: objects expose
their entries; property access on arrays and primitives yields
`undefined` for every key the parsers use. -/
def fieldsOf : JsValue → List (String × JsValue)
  | .obj fs => fs
  | _ => []

/-- Property lookup on an object's field list; `none` is JS `undefined`. -/
def jsGet (fields : List (String × JsValue)) (key : String) : Option JsValue :=
  List.lookup key fields

/-- Plain property access `x.key` (on a non-null, non-undefined value). -/
def getField (v : JsValue) (key : String) : Option JsValue :=
  jsGet (fieldsOf v) key

/-- Optional-chaining access `x?.key`. -/
def optField (v : Option JsValue) (key : String) : Option JsValue :=
  match v with
  | some w => getField w key
  | none => none

/-- JS truthiness of a value. -/
def jsTruthy : JsValue → Bool
  | .null => false
  | .bool b => b
  | .num q => decide (q ≠ 0)
  | .str s => decide (s ≠ "")
  | .arr _ => true
  | .obj _ => true

/-- `typeof x === "object"` (true for objects, arrays and null). -/
def jsTypeofObject : JsValue → Bool
  | .null => true
  | .arr _ => true
  | .obj _ => true
  | _ => false

/-- `typeof x === "object" && x !== null` — the object-likeness test the
parsers apply before descending into a record. -/
def objLike : JsValue → Bool
  | .arr _ => true
  | .obj _ => true
  | _ => false

/-- The test `x === true` applied to a property-access result. -/
def isJsTrue : Option JsValue → Bool
  | some (.bool true) => true
  | _ => false

/-- JS `Math.round`: round half toward positive infinity. -/
def jsRound (q : ℚ) : ℤ := ⌊q + 1/2⌋

/-- Rounding to one decimal place (the spec's "round(x, 1 decimal)"),
with JS `Math.round` tie-breaking. -/
def round1 (q : ℚ) : ℚ := (jsRound (q * 10) : ℚ) / 10

/-- A thrown JS `Error`: its `name` property and its message. -/
structure JsError where
  name : String
  message : String
  deriving DecidableEq

/-- Temperature value with multiple representations (interface ParsedTemperature). -/
structure ParsedTemperature where
  celsius : Option ℚ
  fahrenheit : Option ℚ
  raw : Option ℚ
  deriving DecidableEq

/-- Channel configuration flags (ParsedChannel.config). -/
structure ChannelConfig where
  heating : Bool
  cooling : Bool
  ringActivation : Bool
  locked : Bool
  deriving DecidableEq

/-- All setpoint temperatures of a channel (ParsedChannel.setpoints). -/
structure ChannelSetpoints where
  heatingNormal : ParsedTemperature
  heatingReduced : ParsedTemperature
  heatingStandby : ParsedTemperature
  coolingNormal : ParsedTemperature
  coolingReduced : ParsedTemperature
  deriving DecidableEq

/-- Parsed channel (thermostat/sensor) data (interface ParsedChannel). -/
structure ParsedChannel where
  id : String
  channelZone : ℚ
  controllerNumber : Option ℚ
  currentTemperature : ParsedTemperature
  setpointTemperature : ParsedTemperature
  humidity : Option ℚ
  dewpoint : Option ℚ
  openWindow : Bool
  lowBattery : Bool
  mode : Option ℚ
  demand : Option ℚ
  config : ChannelConfig
  setpoints : ChannelSetpoints
  raw : List (String × JsValue)

/-- Parsed zone data (interface ParsedZone). -/
structure ParsedZone where
  id : String
  number : ℚ
  name : String
  channels : List ParsedChannel

/-- Parsed group data (interface ParsedGroup). -/
structure ParsedGroup where
  id : String
  name : String
  zones : List ParsedZone

/-- Parsed controller data (interface ParsedController). -/
structure ParsedController where
  number : ℚ
  unique : Option String
  zones : List String
  deriving DecidableEq

/-- Pump information of a mixed circuit (ParsedMixedCircuit.pumps elements). -/
structure ParsedPump where
  number : ℚ
  «on» : Bool
  tonSeconds : Option ℚ
  toffSeconds : Option ℚ
  deriving DecidableEq

/-- Parsed mixed circuit data (interface ParsedMixedCircuit). -/
structure ParsedMixedCircuit where
  number : ℚ
  setpoint : ParsedTemperature
  supply : ParsedTemperature
  circuitReturn : ParsedTemperature
  opening : Option ℚ
  pumps : List ParsedPump
  deriving DecidableEq

/-- Global operation mode (ParsedInstallationData.operationMode). -/
structure OperationMode where
  heating : Bool
  cooling : Bool
  manual : Bool
  deriving DecidableEq

/-- Parsed installation data result (interface ParsedInstallationData). -/
structure ParsedInstallationData where
  id : String
  unique : String
  name : String
  address : Option String
  version : Option String
  connectionState : Bool
  timezone : Option String
  absenceLevel : Option ℚ
  geoInstallActive : Bool
  outsideTemperature : ParsedTemperature
  outsideTemperatureFiltered : ParsedTemperature
  coolingConditions : Option ℚ
  operationMode : OperationMode
  numberOfControllers : Option ℚ
  numberOfMixedCircuits : Option ℚ
  controllers : List ParsedController
  groups : List ParsedGroup
  mixedCircuits : List ParsedMixedCircuit
  raw : JsValue

namespace InstallationDataParser

/-- InstallationDataParser.parseTemperature (installation-data-parser, lines 460-473):
decode a raw Fahrenheit×10 value into celsius/fahrenheit/raw.  The argument is
the result of a property access (`none` = absent/undefined). -/
def parseTemperature (value : Option JsValue) : ParsedTemperature :=
  match value with
  | some (.num n) =>
    let fahrenheit := n / 10
    let celsius := ((fahrenheit - 32) * 5) / 9
    { celsius := some ((jsRound (celsius * 10) : ℚ) / 10)
      fahrenheit := some ((jsRound (fahrenheit * 10) : ℚ) / 10)
      raw := some n }
  | _ => { celsius := none, fahrenheit := none, raw := none }

/-- InstallationDataParser.parseChannel (lines 390-421). -/
def parseChannel (channel : List (String × JsValue)) : ParsedChannel :=
  let ccConfigBits := jsGet channel "cc_config_bits"
  let channelConfig := jsGet channel "channel_config"
  { id := match jsGet channel "_id" with | some (.str s) => s | _ => ""
    channelZone := match jsGet channel "channel_zone" with | some (.num n) => n | _ => 0
    controllerNumber := match jsGet channel "controllerNumber" with | some (.num n) => some n | _ => none
    currentTemperature := parseTemperature (jsGet channel "temp_zone")
    setpointTemperature := parseTemperature (jsGet channel "setpoint_used")
    humidity := match jsGet channel "humidity" with | some (.num n) => some n | _ => none
    dewpoint := match jsGet channel "dewpoint" with | some (.num n) => some (n / 10) | _ => none
    openWindow := isJsTrue (jsGet channel "openWindow")
    lowBattery := isJsTrue (jsGet channel "lowBattery")
    mode := match jsGet channel "mode_permanent" with | some (.num n) => some n | _ => none
    demand := match jsGet channel "demand" with | some (.num n) => some n | _ => none
    config :=
      { heating := isJsTrue (optField channelConfig "heating")
        cooling := isJsTrue (optField channelConfig "cooling")
        ringActivation := isJsTrue (optField ccConfigBits "ring_activation")
        locked := isJsTrue (optField ccConfigBits "lock") }
    setpoints :=
      { heatingNormal := parseTemperature (jsGet channel "setpoint_h_normal")
        heatingReduced := parseTemperature (jsGet channel "setpoint_h_reduced")
        heatingStandby := parseTemperature (jsGet channel "setpoint_h_standby")
        coolingNormal := parseTemperature (jsGet channel "setpoint_c_normal")
        coolingReduced := parseTemperature (jsGet channel "setpoint_c_reduced") }
    raw := channel }

/-- InstallationDataParser.parseMixedCircuit (lines 426-455). -/
def parseMixedCircuit (circuit : List (String × JsValue)) : ParsedMixedCircuit :=
  let pumps : List ParsedPump :=
    match jsGet circuit "PUMPx" with
    | some (.arr pumpList) =>
      pumpList.filterMap (fun pump =>
        if objLike pump then
          let p := fieldsOf pump
          let values : Option JsValue :=
            match jsGet p "values" with
            | some (.arr (v0 :: _)) => some v0
            | _ => none
          match values with
          | some v =>
            if jsTruthy v && jsTypeofObject v then
              some { number := match jsGet p "number" with | some (.num n) => n | _ => 0
                     «on» := isJsTrue (getField v "pumpOn")
                     tonSeconds := match getField v "ton" with | some (.num n) => some n | _ => none
                     toffSeconds := match getField v "toff" with | some (.num n) => some n | _ => none }
            else none
          | none => none
        else none)
    | _ => []
  { number := match jsGet circuit "number" with | some (.num n) => n | _ => 0
    setpoint := parseTemperature (jsGet circuit "mixed_circuit1_setpoint")
    supply := parseTemperature (jsGet circuit "mixed_circuit1_supply")
    circuitReturn := parseTemperature (jsGet circuit "mixed_circuit1_return")
    opening := match jsGet circuit "mixed_circuit1_opening" with | some (.num n) => some n | _ => none
    pumps := pumps }

/-- The zone construction inlined in parseInstallation's group loop (lines 322-341). -/
def parseZone (z : List (String × JsValue)) : ParsedZone :=
  { id := match jsGet z "_id" with | some (.str s) => s | _ => ""
    number := match jsGet z "number" with | some (.num n) => n | _ => 0
    name := match jsGet z "name" with | some (.str s) => s | _ => ""
    channels :=
      match jsGet z "channels" with
      | some (.arr chs) =>
        chs.filterMap (fun ch => if objLike ch then some (parseChannel (fieldsOf ch)) else none)
      | _ => [] }

/-- The group construction inlined in parseInstallation's group loop (lines 316-349). -/
def parseGroup (g : List (String × JsValue)) : ParsedGroup :=
  { id := match jsGet g "_id" with | some (.str s) => s | _ => ""
    name := match jsGet g "name" with | some (.str s) => s | _ => ""
    zones :=
      match jsGet g "zones" with
      | some (.arr zns) =>
        zns.filterMap (fun zn => if objLike zn then some (parseZone (fieldsOf zn)) else none)
      | _ => [] }

/-- InstallationDataParser.parseInstallation (lines 288-385). -/
def parseInstallation (install : List (String × JsValue)) (rawResponse : JsValue) :
    ParsedInstallationData :=
  let userConfig := jsGet install "user"
  let heatCoolAuto := optField userConfig "heatcool_auto_01"
  let operationMode : OperationMode :=
    { heating := isJsTrue (optField heatCoolAuto "heating")
      cooling := isJsTrue (optField heatCoolAuto "cooling")
      manual := isJsTrue (optField heatCoolAuto "manual") }
  let controllers : List ParsedController :=
    match jsGet install "controllers" with
    | some (.arr cs) =>
      cs.filterMap (fun ctrl =>
        if objLike ctrl then
          let c := fieldsOf ctrl
          some { number := match jsGet c "number" with | some (.num n) => n | _ => 0
                 unique := match jsGet c "unique" with | some (.str s) => some s | _ => none
                 zones := match jsGet c "zones" with
                   | some (.arr zs) => zs.filterMap (fun z => match z with | .str s => some s | _ => none)
                   | _ => [] }
        else none)
    | _ => []
  let groups : List ParsedGroup :=
    match jsGet install "groups" with
    | some (.arr gs) =>
      gs.filterMap (fun grp => if objLike grp then some (parseGroup (fieldsOf grp)) else none)
    | _ => []
  let mixedCircuits : List ParsedMixedCircuit :=
    match jsGet install "mixedCircuits" with
    | some (.arr mcs) =>
      mcs.filterMap (fun mc => if objLike mc then some (parseMixedCircuit (fieldsOf mc)) else none)
    | _ => []
  { id := match jsGet install "_id" with | some (.str s) => s | _ => ""
    unique := match jsGet install "unique" with | some (.str s) => s | _ => ""
    name := match jsGet install "name" with | some (.str s) => s | _ => ""
    address := match jsGet install "address" with | some (.str s) => some s | _ => none
    version := match jsGet install "version" with | some (.str s) => some s | _ => none
    connectionState := isJsTrue (jsGet install "connectionState")
    timezone := match jsGet install "timezone" with | some (.str s) => some s | _ => none
    absenceLevel := match jsGet install "absenceLevel" with | some (.num n) => some n | _ => none
    geoInstallActive := isJsTrue (jsGet install "geoInstallActive")
    outsideTemperature := parseTemperature (jsGet install "outside_temp")
    outsideTemperatureFiltered := parseTemperature (jsGet install "outsideTempFiltered")
    coolingConditions := match jsGet install "coolingConditions" with | some (.num n) => some n | _ => none
    operationMode := operationMode
    numberOfControllers := match jsGet install "number_cc" with | some (.num n) => some n | _ => none
    numberOfMixedCircuits := match jsGet install "number_mixed" with | some (.num n) => some n | _ => none
    controllers := controllers
    groups := groups
    mixedCircuits := mixedCircuits
    raw := rawResponse }

/-- InstallationDataParser.isValidResponse (lines 478-501). -/
def isValidResponse (response : JsValue) : Bool :=
  if !(jsTruthy response && jsTypeofObject response) then false
  else
    match getField response "data" with
    | some data =>
      if !(jsTruthy data && jsTypeofObject data) then false
      else
        match getField data "user" with
        | some user =>
          if !(jsTruthy user && jsTypeofObject user) then false
          else
            match getField user "installs" with
            | some (.arr _) => true
            | _ => false
        | none => false
    | none => false

/-- Calling this.parseInstallation(install, response) on a selected element of
the installs array: property access on `null` throws a TypeError; any other
value is treated as a record (primitives expose no fields). -/
def parseSelected (install : JsValue) (response : JsValue) :
    Except JsError ParsedInstallationData :=
  match install with
  | .null => .error { name := "TypeError"
                      message := "Cannot read properties of null (reading 'user')" }
  | v => .ok (parseInstallation (fieldsOf v) response)

/-- The find callback of InstallationDataParser.parse (lines 270-272):
`typeof i === 'object' && i !== null && i.unique === targetUnique`. -/
def matchesUnique (t : String) (i : JsValue) : Bool :=
  objLike i && (match getField i "unique" with
                | some (.str s) => s == t
                | _ => false)

/-- InstallationDataParser.parse (lines 253-283).  `targetUnique = none` models an
omitted argument; `if (targetUnique)` is JS-falsy for the empty string. -/
def parse (response : JsValue) (targetUnique : Option String) :
    Except JsError ParsedInstallationData :=
  if !isValidResponse response then
    .error { name := "Error"
             message := "Invalid getInstallationData response: missing required fields" }
  else
    match optField (optField (getField response "data") "user") "installs" with
    | some (.arr installs) =>
      if installs.isEmpty then
        .error { name := "Error", message := "No installations found in response" }
      else
        match targetUnique with
        | some t =>
          if !t.isEmpty then
            match installs.find? (matchesUnique t) with
            | some found => .ok (parseInstallation (fieldsOf found) response)
            | none => .error { name := "Error"
                               message := "Installation with unique ID \"" ++ t ++ "\" not found" }
          else parseSelected (installs.headD .null) response
        | none => parseSelected (installs.headD .null) response
    | _ => .error { name := "Error", message := "No installations found in response" }

end InstallationDataParser

/-- Parsed installation information from getUserData (interface ParsedInstallationInfo).
The unvalidated optional fields keep the raw value the `x || null` idiom
produces. -/
structure ParsedInstallationInfo where
  id : String
  unique : String
  name : String
  address : Option JsValue
  role : Option JsValue

/-- Parsed user data result (interface ParsedUserData). -/
structure ParsedUserData where
  userId : String
  email : Option JsValue
  userName : Option JsValue
  installations : List ParsedInstallationInfo
  raw : JsValue

/-- The `x || null` idiom: keep a truthy value, otherwise null (modelled as none). -/
def jsOrNull (v : Option JsValue) : Option JsValue :=
  match v with
  | some w => if jsTruthy w then some w else none
  | none => none

namespace UserDataParser

/-- UserDataParser.isValidResponse (user-data-parser.ts, lines 127-168). -/
def isValidResponse (response : JsValue) : Bool :=
  if !(jsTruthy response && jsTypeofObject response) then false
  else
    let r := fieldsOf response
    if !(match jsGet r "success" with | some (.bool _) => true | _ => false) then false
    else
      match jsGet r "data" with
      | some data =>
        if !(jsTruthy data && jsTypeofObject data) then false
        else
          match getField data "user" with
          | some user =>
            if !(jsTruthy user && jsTypeofObject user) then false
            else
              let u := fieldsOf user
              if !(match jsGet u "_id" with | some (.str _) => true | _ => false) then false
              else
                match jsGet u "installs" with
                | some (.arr installs) =>
                  installs.all (fun i =>
                    jsTruthy i && jsTypeofObject i &&
                    (match getField i "_id" with | some (.str _) => true | _ => false) &&
                    (match getField i "unique" with | some (.str _) => true | _ => false) &&
                    (match getField i "name" with | some (.str _) => true | _ => false))
                | _ => false
          | none => false
      | none => false

/-- The installation mapping inside UserDataParser.parse (lines 107-113). -/
def parseInstallationInfo (install : JsValue) : ParsedInstallationInfo :=
  let i := fieldsOf install
  { id := match jsGet i "_id" with | some (.str s) => s | _ => ""
    unique := match jsGet i "unique" with | some (.str s) => s | _ => ""
    name := match jsGet i "name" with | some (.str s) => s | _ => ""
    address := jsOrNull (jsGet i "address")
    role := jsOrNull (optField (jsGet i "association") "role") }

/-- UserDataParser.parse (lines 92-122). -/
def parse (response : JsValue) : Except JsError ParsedUserData :=
  if !isValidResponse response then
    .error { name := "Error"
             message := "Invalid getUserData response: missing required fields" }
  else
    if !(isJsTrue (getField response "success")) then
      .error { name := "Error", message := "getUserData API returned success=false" }
    else
      let user := optField (getField response "data") "user"
      let u := match user with | some w => fieldsOf w | none => []
      let installs := match jsGet u "installs" with | some (.arr l) => l | _ => []
      .ok { userId := match jsGet u "_id" with | some (.str s) => s | _ => ""
            email := jsOrNull (jsGet u "email")
            userName := jsOrNull (jsGet u "name")
            installations := installs.map parseInstallationInfo
            raw := response }

end UserDataParser

/-- JS `a.toLowerCase()` restricted to the character-wise mapping (exact on
the ASCII keys the logger compares). -/
def toLowerStr (s : String) : String := String.mk (s.toList.map Char.toLower)

/-- Contiguous-substring test on character lists (JS `String.includes`). -/
def strIncludesAux (sub : List Char) : List Char → Bool
  | [] => sub.isEmpty
  | c :: tl => sub.isPrefixOf (c :: tl) || strIncludesAux sub tl

/-- JS `s.includes(sub)`. -/
def strIncludes (s sub : String) : Bool := strIncludesAux sub.toList s.toList

namespace Logger

/-- The sensitiveKeys list of redactSensitiveData (logger.ts, lines 24-28). -/
def sensitiveKeys : List String :=
  ["password", "token", "access_token", "refresh_token", "id_token",
   "authorization", "auth", "secret", "api_key", "apikey",
   "email", "username", "user", "login", "credential"]

/-- `sensitiveKeys.some(sk => key.toLowerCase().includes(sk))` (lines 31-32). -/
def isSensitiveKey (key : String) : Bool :=
  sensitiveKeys.any (fun sk => strIncludes (toLowerStr key) sk)

/-- The replacement applied to a sensitive entry's value (lines 34-44):
non-empty strings are masked by length, everything else becomes
"[REDACTED]". -/
def redactEntryValue (value : JsValue) : JsValue :=
  match value with
  | .str s =>
    if s.length > 0 then
      if s.length ≤ 4 then .str "***"
      else .str (s.take 2 ++ "..." ++ s.drop (s.length - 2))
    else .str "[REDACTED]"
  | _ => .str "[REDACTED]"

mutual

/-- redactSensitiveData (logger.ts, lines 10-53). -/
def redactSensitiveData : JsValue → JsValue
  | .null => .null
  | .bool b => .bool b
  | .num q => .num q
  | .str s => .str s
  | .arr xs => .arr (redactSensitiveList xs)
  | .obj fs => .obj (redactSensitiveFields fs)

/-- `obj.map(item => redactSensitiveData(item))` for arrays (line 20). -/
def redactSensitiveList : List JsValue → List JsValue
  | [] => []
  | x :: xs => redactSensitiveData x :: redactSensitiveList xs

/-- The `for (const [key, value] of Object.entries(obj))` loop (lines 30-50):
sensitive keys get their value replaced, object-typed values (including
null) recurse, anything else is kept. -/
def redactSensitiveFields : List (String × JsValue) → List (String × JsValue)
  | [] => []
  | (key, value) :: fs =>
    (key,
      if isSensitiveKey key then redactEntryValue value
      else
        match value with
        | .obj _ => redactSensitiveData value
        | .arr _ => redactSensitiveData value
        | .null => redactSensitiveData value
        | _ => value) :: redactSensitiveFields fs

end

/-- The per-entry transformation of the Object.entries loop, as a plain
function (used to state the loop's pointwise behaviour). -/
def redactField (key : String) (value : JsValue) : JsValue :=
  if isSensitiveKey key then redactEntryValue value
  else
    match value with
    | .obj _ => redactSensitiveData value
    | .arr _ => redactSensitiveData value
    | .null => redactSensitiveData value
    | _ => value

end Logger

/-- The sensitive-substring list as the claim words it (a subset of the
logger's list, closed by "etc."). -/
def claimSensitiveKeys : List String :=
  ["password", "token", "auth", "secret", "email", "user", "login", "credential"]

/-- A key the claim calls sensitive: its lowercase form contains one of the
claim's substrings. -/
def claimSensitive (key : String) : Bool :=
  claimSensitiveKeys.any (fun sk => strIncludes (toLowerStr key) sk)

namespace Reconciler

/-- The origin of an update submitted to the Reconciler. -/
inductive Source where
  | poll
  | push
  deriving DecidableEq

/-- An update `(field, value, sourceKind, timestamp)` for one zone field. -/
structure Update where
  value : ℤ
  source : Source
  time : ℕ
  deriving DecidableEq

/-- A pending optimistic write: the commanded value, the instant its grace
period ends, and how many consecutive disagreeing external updates have
been seen since it was issued. -/
structure Pending where
  value : ℤ
  deadline : ℕ
  conflicts : ℕ
  deriving DecidableEq

/-- The reconciled state of one zone field. -/
structure FieldState where
  value : ℤ
  pending : Option Pending
  deriving DecidableEq

/-- Modelled from the spec: the Reconciler's per-field merge rule (spec §4.3);
the implementing file (climate-controller.ts) is not among the parser
sources.  With no pending write the update is applied unconditionally; with
one, an equal value confirms it; a conflicting value is applied once it is
the second consecutive disagreement, or — for a device-originated push —
once the grace period has elapsed, whichever comes first; otherwise it is
suppressed and the disagreement counted. -/
def applyUpdate (s : FieldState) (u : Update) : FieldState :=
  match s.pending with
  | none => { value := u.value, pending := none }
  | some p =>
    if u.value = p.value then
      { value := u.value, pending := none }
    else if 2 ≤ p.conflicts + 1 ∨ (u.source = .push ∧ p.deadline ≤ u.time) then
      { value := u.value, pending := none }
    else
      { value := s.value, pending := some { p with conflicts := p.conflicts + 1 } }

/-- Modelled from the spec: a local command writes its value optimistically
and installs a fresh pending marker whose grace period starts now (spec
§4.4); a second command supersedes the first. -/
def issueCommand (_s : FieldState) (v : ℤ) (now grace : ℕ) : FieldState :=
  { value := v, pending := some { value := v, deadline := now + grace, conflicts := 0 } }

/-- Modelled from the spec: the states of one zone field reachable through
the reconciliation step relation — initial snapshots, local commands, and
poll/push updates. -/
inductive Reach (grace : ℕ) : FieldState → Prop where
  | init (v : ℤ) : Reach grace { value := v, pending := none }
  | command {s : FieldState} (v : ℤ) (now : ℕ) :
      Reach grace s → Reach grace (issueCommand s v now grace)
  | update {s : FieldState} (u : Update) :
      Reach grace s → Reach grace (applyUpdate s u)

end Reconciler

/-- Evaluation rule for jsRound at a concrete rational. -/
theorem jsRound_eq_of (q : ℚ) (n : ℤ) (h1 : (n : ℚ) ≤ q + 1/2) (h2 : q + 1/2 < n + 1) :
    jsRound q = n := by
  unfold jsRound
  rw [Int.floor_eq_iff]
  exact ⟨h1, by exact_mod_cast h2⟩

/-- parseTemperature on a numeric value, written with the spec's conversion
formula round(((raw/10 − 32) × 5/9), 1 decimal). -/
theorem parseTemperature_num (n : ℚ) :
    InstallationDataParser.parseTemperature (some (.num n)) =
      { celsius := some (round1 ((n / 10 - 32) * (5 / 9)))
        fahrenheit := some (round1 (n / 10))
        raw := some n } := by
  have harg : ((n / 10 - 32) * 5 / 9) * 10 = ((n / 10 - 32) * (5 / 9)) * 10 := by ring
  simp only [InstallationDataParser.parseTemperature, round1, harg]

/-- C1: for every numeric raw value (integers included), parseTemperature
returns celsius = round(((raw/10 − 32) × 5/9), 1 decimal) and
fahrenheit = round(raw/10, 1 decimal), exactly, and echoes the raw value. -/
theorem parseTemperature_conversion_exact (raw : ℚ) :
    InstallationDataParser.parseTemperature (some (.num raw)) =
      { celsius := some (round1 ((raw / 10 - 32) * (5 / 9)))
        fahrenheit := some (round1 (raw / 10))
        raw := some raw } :=
  parseTemperature_num raw

/-- C2: raw = 716 decodes to celsius 22.0 and fahrenheit 71.6, and
re-deriving Fahrenheit from the returned celsius reproduces 71.6 within
0.05. -/
theorem parseTemperature_716_round_trip :
    InstallationDataParser.parseTemperature (some (.num 716)) =
      { celsius := some 22, fahrenheit := some (716 / 10), raw := some 716 } ∧
    |(22 : ℚ) * 9 / 5 + 32 - 716 / 10| ≤ 5 / 100 := by
  constructor
  · rw [parseTemperature_num]
    have hc : round1 (((716 : ℚ) / 10 - 32) * (5 / 9)) = 22 := by
      unfold round1
      rw [jsRound_eq_of _ 220 (by norm_num) (by norm_num)]
      norm_num
    have hf : round1 ((716 : ℚ) / 10) = 716 / 10 := by
      unfold round1
      rw [jsRound_eq_of _ 716 (by norm_num) (by norm_num)]
      norm_num
    rw [hc, hf]
  · norm_num

/-- C3 counterexample: a channel dewpoint of raw 716 is parsed as 71.6 —
the raw value merely divided by 10 — while the Fahrenheit×10 conversion
rule used for every other temperature would give 22.0.  So not every
numeric temperature field is decoded by the shared conversion. -/
theorem dewpoint_not_converted_counterexample :
    (InstallationDataParser.parseChannel [("dewpoint", JsValue.num 716)]).dewpoint
        = some (716 / 10) ∧
    (InstallationDataParser.parseTemperature (some (.num 716))).celsius = some 22 ∧
    ((716 : ℚ) / 10) ≠ 22 := by
  refine ⟨rfl, ?_, by norm_num⟩
  exact congrArg ParsedTemperature.celsius parseTemperature_716_round_trip.1

/-- C3 amended: every ParsedTemperature-typed field (current temperature,
used setpoint, the five configured setpoints, both outside temperatures,
and the mixed-circuit temperatures) is decoded through parseTemperature,
which applies the Fahrenheit×10 conversion with one-decimal rounding; the
channel dewpoint alone is the raw value divided by 10, with no
Fahrenheit-to-Celsius conversion and no rounding. -/
theorem temperature_fields_conversion (ch inst mc : List (String × JsValue))
    (r : JsValue) (n : ℚ) :
    InstallationDataParser.parseTemperature (some (.num n)) =
      { celsius := some (round1 ((n / 10 - 32) * (5 / 9)))
        fahrenheit := some (round1 (n / 10))
        raw := some n } ∧
    (InstallationDataParser.parseChannel ch).currentTemperature
        = InstallationDataParser.parseTemperature (jsGet ch "temp_zone") ∧
    (InstallationDataParser.parseChannel ch).setpointTemperature
        = InstallationDataParser.parseTemperature (jsGet ch "setpoint_used") ∧
    (InstallationDataParser.parseChannel ch).setpoints =
      { heatingNormal := InstallationDataParser.parseTemperature (jsGet ch "setpoint_h_normal")
        heatingReduced := InstallationDataParser.parseTemperature (jsGet ch "setpoint_h_reduced")
        heatingStandby := InstallationDataParser.parseTemperature (jsGet ch "setpoint_h_standby")
        coolingNormal := InstallationDataParser.parseTemperature (jsGet ch "setpoint_c_normal")
        coolingReduced := InstallationDataParser.parseTemperature (jsGet ch "setpoint_c_reduced") } ∧
    (InstallationDataParser.parseInstallation inst r).outsideTemperature
        = InstallationDataParser.parseTemperature (jsGet inst "outside_temp") ∧
    (InstallationDataParser.parseInstallation inst r).outsideTemperatureFiltered
        = InstallationDataParser.parseTemperature (jsGet inst "outsideTempFiltered") ∧
    (InstallationDataParser.parseMixedCircuit mc).setpoint
        = InstallationDataParser.parseTemperature (jsGet mc "mixed_circuit1_setpoint") ∧
    (InstallationDataParser.parseMixedCircuit mc).supply
        = InstallationDataParser.parseTemperature (jsGet mc "mixed_circuit1_supply") ∧
    (InstallationDataParser.parseMixedCircuit mc).circuitReturn
        = InstallationDataParser.parseTemperature (jsGet mc "mixed_circuit1_return") ∧
    (∀ q : ℚ, jsGet ch "dewpoint" = some (.num q) →
      (InstallationDataParser.parseChannel ch).dewpoint = some (q / 10)) := by
  refine ⟨parseTemperature_num n, rfl, rfl, rfl, rfl, rfl, rfl, rfl, rfl, ?_⟩
  intro q h
  simp [InstallationDataParser.parseChannel, h]

/-- C3 amended witness: the dewpoint clause applied at a concrete channel. -/
theorem temperature_fields_conversion_witness :
    (InstallationDataParser.parseChannel [("dewpoint", JsValue.num 5)]).dewpoint
        = some (5 / 10) :=
  (temperature_fields_conversion [("dewpoint", JsValue.num 5)] [] [] .null 0).2.2.2.2.2.2.2.2.2
    5 rfl

/-- A string-typed extractor yields the default or a string present in the input. -/
theorem matchStr_default (v : Option JsValue) :
    (match v with | some (.str s) => s | _ => "") = "" ∨
    ∃ s, v = some (.str s) ∧ (match v with | some (.str s) => s | _ => "") = s := by
  rcases v with _ | w
  · left; rfl
  · cases w <;> simp

/-- A number-typed extractor yields null or a number present in the input. -/
theorem matchNum_default (v : Option JsValue) :
    (match v with | some (.num q) => some q | _ => none) = (none : Option ℚ) ∨
    ∃ q, v = some (.num q) ∧
      (match v with | some (.num q) => some q | _ => none) = some q := by
  rcases v with _ | w
  · left; rfl
  · cases w <;> simp

/-- A default-zero number extractor yields 0 or a number present in the input. -/
theorem matchNumZero_default (v : Option JsValue) :
    (match v with | some (.num q) => q | _ => 0) = (0 : ℚ) ∨
    ∃ q, v = some (.num q) ∧ (match v with | some (.num q) => q | _ => 0) = q := by
  rcases v with _ | w
  · left; rfl
  · cases w <;> simp

/-- A strict `=== true` extractor yields false or a literal true in the input. -/
theorem isJsTrue_default (v : Option JsValue) :
    isJsTrue v = false ∨ v = some (.bool true) := by
  rcases v with _ | (_ | ⟨_ | _⟩ | _ | _ | _ | _) <;>
    first
      | (left; rfl)
      | (right; rfl)

/-- C4: the field-level extractors are total — on any string-keyed record
each extracted field is either a value of the expected type taken from the
input or the documented default/null; no shape of input reaches an error.
Shown here for representative fields of parseInstallation, parseChannel,
parseMixedCircuit and for parseTemperature on an arbitrary value. -/
theorem extractors_default_on_type_mismatch (o : List (String × JsValue)) (r : JsValue)
    (v : Option JsValue) :
    (InstallationDataParser.parseTemperature v
        = { celsius := none, fahrenheit := none, raw := none } ∨
      ∃ q, v = some (.num q)) ∧
    ((InstallationDataParser.parseChannel o).id = "" ∨
      ∃ s, jsGet o "_id" = some (.str s) ∧ (InstallationDataParser.parseChannel o).id = s) ∧
    ((InstallationDataParser.parseChannel o).channelZone = 0 ∨
      ∃ q, jsGet o "channel_zone" = some (.num q) ∧
        (InstallationDataParser.parseChannel o).channelZone = q) ∧
    ((InstallationDataParser.parseChannel o).humidity = none ∨
      ∃ q, jsGet o "humidity" = some (.num q) ∧
        (InstallationDataParser.parseChannel o).humidity = some q) ∧
    ((InstallationDataParser.parseChannel o).openWindow = false ∨
      jsGet o "openWindow" = some (.bool true)) ∧
    ((InstallationDataParser.parseInstallation o r).id = "" ∨
      ∃ s, jsGet o "_id" = some (.str s) ∧
        (InstallationDataParser.parseInstallation o r).id = s) ∧
    ((InstallationDataParser.parseInstallation o r).absenceLevel = none ∨
      ∃ q, jsGet o "absenceLevel" = some (.num q) ∧
        (InstallationDataParser.parseInstallation o r).absenceLevel = some q) ∧
    ((InstallationDataParser.parseInstallation o r).connectionState = false ∨
      jsGet o "connectionState" = some (.bool true)) ∧
    ((InstallationDataParser.parseMixedCircuit o).number = 0 ∨
      ∃ q, jsGet o "number" = some (.num q) ∧
        (InstallationDataParser.parseMixedCircuit o).number = q) ∧
    ((InstallationDataParser.parseMixedCircuit o).opening = none ∨
      ∃ q, jsGet o "mixed_circuit1_opening" = some (.num q) ∧
        (InstallationDataParser.parseMixedCircuit o).opening = some q) := by
  refine ⟨?_, ?_, ?_, ?_, ?_, ?_, ?_, ?_, ?_, ?_⟩
  · rcases v with _ | (_ | _ | q | _ | _ | _)
    on_goal 4 => exact Or.inr ⟨q, rfl⟩
    all_goals exact Or.inl rfl
  · exact matchStr_default (jsGet o "_id")
  · exact matchNumZero_default (jsGet o "channel_zone")
  · exact matchNum_default (jsGet o "humidity")
  · exact isJsTrue_default (jsGet o "openWindow")
  · exact matchStr_default (jsGet o "_id")
  · exact matchNum_default (jsGet o "absenceLevel")
  · exact isJsTrue_default (jsGet o "connectionState")
  · exact matchNumZero_default (jsGet o "number")
  · exact matchNum_default (jsGet o "mixed_circuit1_opening")

/-- C5 counterexample: a malformed payload (here: null) makes
InstallationDataParser.parse throw a plain `Error` — its `name` is
"Error", not "ParseError" — so the thrown error is not distinguishable by
name as a parse error. -/
theorem malformed_error_not_named_counterexample :
    InstallationDataParser.parse .null none =
      .error { name := "Error"
               message := "Invalid getInstallationData response: missing required fields" } ∧
    "Error" ≠ "ParseError" := by
  exact ⟨rfl, by decide⟩

/-- C5 amended: every payload failing shape validation produces a
deterministic thrown `Error` (never an uncontrolled crash) whose message
identifies the parse failure; the error is distinguishable by its message,
not by its name, which is the generic "Error". -/
theorem malformed_payload_error (r : JsValue) (t : Option String) :
    (InstallationDataParser.isValidResponse r = false →
      InstallationDataParser.parse r t =
        .error { name := "Error"
                 message := "Invalid getInstallationData response: missing required fields" }) ∧
    (UserDataParser.isValidResponse r = false →
      UserDataParser.parse r =
        .error { name := "Error"
                 message := "Invalid getUserData response: missing required fields" }) := by
  constructor
  · intro h
    simp [InstallationDataParser.parse, h]
  · intro h
    simp [UserDataParser.parse, h]

/-- C5 amended witness: both parsers rejecting the null payload. -/
theorem malformed_payload_error_witness :
    InstallationDataParser.parse .null none =
      .error { name := "Error"
               message := "Invalid getInstallationData response: missing required fields" } ∧
    UserDataParser.parse .null =
      .error { name := "Error"
               message := "Invalid getUserData response: missing required fields" } :=
  ⟨(malformed_payload_error .null none).1 rfl, (malformed_payload_error .null none).2 rfl⟩

/-- C6: a parsed zone's identity is the durable `_id` carried by the
payload, never a composite recomputed from zone number: two zone records
with the same zone number but different durable IDs parse to two distinct
zones with differing `id` fields, and an installation carrying both in one
group yields both as separate entries. -/
theorem zone_identity_durable (z1 z2 : List (String × JsValue)) (d1 d2 : String) (n : ℚ)
    (r : JsValue)
    (h1 : jsGet z1 "_id" = some (.str d1)) (h2 : jsGet z2 "_id" = some (.str d2))
    (hn1 : jsGet z1 "number" = some (.num n)) (hn2 : jsGet z2 "number" = some (.num n))
    (hne : d1 ≠ d2) :
    (InstallationDataParser.parseZone z1).id = d1 ∧
    (InstallationDataParser.parseZone z2).id = d2 ∧
    (InstallationDataParser.parseZone z1).id ≠ (InstallationDataParser.parseZone z2).id ∧
    (InstallationDataParser.parseZone z1).number = (InstallationDataParser.parseZone z2).number ∧
    (InstallationDataParser.parseInstallation
        [("groups", .arr [.obj [("zones", .arr [.obj z1, .obj z2])]])] r).groups =
      [{ id := "", name := ""
         zones := [InstallationDataParser.parseZone z1,
                   InstallationDataParser.parseZone z2] }] := by
  have e1 : (InstallationDataParser.parseZone z1).id = d1 := by
    simp [InstallationDataParser.parseZone, h1]
  have e2 : (InstallationDataParser.parseZone z2).id = d2 := by
    simp [InstallationDataParser.parseZone, h2]
  refine ⟨e1, e2, ?_, ?_, ?_⟩
  · rw [e1, e2]; exact hne
  · simp [InstallationDataParser.parseZone, hn1, hn2]
  · rfl

/-- C6 witness: two concrete zone records sharing number 1 with distinct
durable IDs parse to zones with distinct ids. -/
theorem zone_identity_durable_witness :
    (InstallationDataParser.parseZone [("_id", JsValue.str "a"), ("number", JsValue.num 1)]).id ≠
    (InstallationDataParser.parseZone [("_id", JsValue.str "b"), ("number", JsValue.num 1)]).id :=
  (zone_identity_durable [("_id", JsValue.str "a"), ("number", JsValue.num 1)]
    [("_id", JsValue.str "b"), ("number", JsValue.num 1)] "a" "b" 1 .null
    rfl rfl rfl rfl (by decide)).2.2.1

/-- C7 counterexample: in the spec's own merge rule a second consecutive
disagreeing poll is applied even though it neither matches the pending
value nor arrives after the grace period.  The state below is reachable
(command at time 0, one conflicting poll at time 10); the second
conflicting poll at time 20 — well before the deadline 100 — overwrites
the field and clears the pending marker. -/
theorem reconciler_overwrite_before_grace_counterexample :
    Reconciler.Reach 100
      { value := 215, pending := some { value := 215, deadline := 100, conflicts := 1 } } ∧
    Reconciler.applyUpdate
        { value := 215, pending := some { value := 215, deadline := 100, conflicts := 1 } }
        { value := 220, source := .poll, time := 20 } =
      { value := 220, pending := none } ∧
    (220 : ℤ) ≠ 215 ∧ (20 : ℕ) < 100 := by
  refine ⟨?_, rfl, by decide, by decide⟩
  exact Reconciler.Reach.update { value := 220, source := .poll, time := 10 }
    (Reconciler.Reach.command 215 0 (Reconciler.Reach.init 215))

/-- C7 amended: in every reachable state, an update is applied to a field
under a pending optimistic write (its value taken and the marker cleared)
exactly when the update's value equals the pending value (confirmation),
or it is at least the second consecutive disagreeing update, or it is a
device-originated push arriving after the grace period has elapsed
(timeout reversion); otherwise it is suppressed. -/
theorem reconciler_pending_overwrite_iff (grace : ℕ) (s : Reconciler.FieldState)
    (p : Reconciler.Pending) (u : Reconciler.Update)
    (_hr : Reconciler.Reach grace s) (hp : s.pending = some p) :
    ((Reconciler.applyUpdate s u).value = u.value ∧
        (Reconciler.applyUpdate s u).pending = none) ↔
      (u.value = p.value ∨ 2 ≤ p.conflicts + 1 ∨
        (u.source = .push ∧ p.deadline ≤ u.time)) := by
  have e : Reconciler.applyUpdate s u =
      (if u.value = p.value then { value := u.value, pending := none }
       else if 2 ≤ p.conflicts + 1 ∨ (u.source = Reconciler.Source.push ∧ p.deadline ≤ u.time) then
         { value := u.value, pending := none }
       else
         { value := s.value
           pending := some { value := p.value, deadline := p.deadline
                             conflicts := p.conflicts + 1 } }) := by
    unfold Reconciler.applyUpdate
    rw [hp]
  rw [e]
  by_cases h1 : u.value = p.value
  · simp [h1]
  · rw [if_neg h1]
    by_cases h2 : 2 ≤ p.conflicts + 1 ∨ (u.source = Reconciler.Source.push ∧ p.deadline ≤ u.time)
    · rw [if_pos h2]
      exact iff_of_true ⟨rfl, rfl⟩ (by tauto)
    · rw [if_neg h2]
      refine iff_of_false ?_ (by tauto)
      rintro ⟨-, hcontra⟩
      simp at hcontra

/-- C7 amended witness: a push matching the pending value confirms it at a
concrete reachable state. -/
theorem reconciler_pending_overwrite_iff_witness :
    (Reconciler.applyUpdate
        { value := 215, pending := some { value := 215, deadline := 100, conflicts := 0 } }
        { value := 215, source := .push, time := 0 }).value = 215 ∧
    (Reconciler.applyUpdate
        { value := 215, pending := some { value := 215, deadline := 100, conflicts := 0 } }
        { value := 215, source := .push, time := 0 }).pending = none :=
  (reconciler_pending_overwrite_iff 100 _ _ _
      (Reconciler.Reach.command 215 0 (Reconciler.Reach.init 215)) rfl).mpr (Or.inl rfl)

/-- C8 counterexample: a response that passes shape validation, has a
non-empty installs array and is parsed without targetUnique can still
throw — when its first installs element is null the parser crashes with a
TypeError instead of returning normally, so the claimed "throws iff
invalid shape, empty installs, or unmatched targetUnique" is false. -/
theorem parse_null_install_crash_counterexample :
    InstallationDataParser.isValidResponse
      (.obj [("data", .obj [("user", .obj [("installs", .arr [.null])])])]) = true ∧
    InstallationDataParser.parse
        (.obj [("data", .obj [("user", .obj [("installs", .arr [.null])])])]) none =
      .error { name := "TypeError"
               message := "Cannot read properties of null (reading 'user')" } := by
  exact ⟨rfl, rfl⟩

/-- C8 amended: parse returns normally iff the response passes shape
validation, the installs array is non-empty, and either a non-empty
targetUnique finds a matching installation, or — with targetUnique omitted
or empty — the first installs element is not null; in the first case the
matching installation is parsed, in the second the first one.  Every other
input throws (invalid shape, empty installs, unmatched non-empty
targetUnique, or a null first element, the latter as a TypeError). -/
theorem parse_returns_iff (r : JsValue) (t : Option String) :
    ((InstallationDataParser.parse r t).isOk = true ↔
      (InstallationDataParser.isValidResponse r = true ∧
        ∃ l, optField (optField (getField r "data") "user") "installs" = some (.arr l) ∧
          l ≠ [] ∧
          (match t with
           | some u =>
             if u ≠ "" then
               (∃ i, l.find? (InstallationDataParser.matchesUnique u) = some i)
             else l.headD .null ≠ .null
           | none => l.headD .null ≠ .null))) ∧
    (∀ u i l, t = some u → u ≠ "" →
      InstallationDataParser.isValidResponse r = true →
      optField (optField (getField r "data") "user") "installs" = some (.arr l) →
      l.find? (InstallationDataParser.matchesUnique u) = some i →
      InstallationDataParser.parse r t =
        .ok (InstallationDataParser.parseInstallation (fieldsOf i) r)) ∧
    (∀ i rest, (t = none ∨ t = some "") →
      InstallationDataParser.isValidResponse r = true →
      optField (optField (getField r "data") "user") "installs" = some (.arr (i :: rest)) →
      i ≠ .null →
      InstallationDataParser.parse r t =
        .ok (InstallationDataParser.parseInstallation (fieldsOf i) r)) := by
  by_cases hv : InstallationDataParser.isValidResponse r = true
  · rcases hin : optField (optField (getField r "data") "user") "installs" with
      _ | (_ | _ | _ | _ | l | _)
    on_goal 6 =>
      rcases l with _ | ⟨i, rest⟩
      · -- installs array empty
        have hp : InstallationDataParser.parse r t =
            .error { name := "Error", message := "No installations found in response" } := by
          unfold InstallationDataParser.parse
          rw [hv, hin]
          rfl
        refine ⟨?_, ?_, ?_⟩
        · simp [hp, Except.isOk, Except.toBool]
        · intro u i l _ _ _ hopt hf
          simp only [Option.some.injEq, JsValue.arr.injEq] at hopt
          subst hopt
          simp at hf
        · intro i rest _ _ hopt
          simp at hopt
      · rcases t with _ | u
        · -- targetUnique omitted
          have hp : InstallationDataParser.parse r none =
              InstallationDataParser.parseSelected ((i :: rest).headD .null) r := by
            unfold InstallationDataParser.parse
            rw [hv, hin]
            rfl
          refine ⟨?_, ?_, ?_⟩
          · rcases i with _ | _ | _ | _ | _ | _
            all_goals rw [hp]
            all_goals simp [InstallationDataParser.parseSelected, hv,
              Except.isOk, Except.toBool]
          · intro u _ _ ht
            exact absurd ht (by simp)
          · intro i0 rest0 _ _ hopt hnull
            simp only [Option.some.injEq, JsValue.arr.injEq, List.cons.injEq] at hopt
            obtain ⟨h1, h2⟩ := hopt
            rw [hp, ← h1]
            rw [← h1] at hnull
            rcases i with _ | _ | _ | _ | _ | _ <;>
              simp [InstallationDataParser.parseSelected] at hnull ⊢
        · -- targetUnique supplied
          by_cases hu : u = ""
          · subst hu
            have hp : InstallationDataParser.parse r (some "") =
                InstallationDataParser.parseSelected ((i :: rest).headD .null) r := by
              unfold InstallationDataParser.parse
              rw [hv, hin]
              rfl
            refine ⟨?_, ?_, ?_⟩
            · rcases i with _ | _ | _ | _ | _ | _
              all_goals rw [hp]
              all_goals simp [InstallationDataParser.parseSelected, hv,
                Except.isOk, Except.toBool]
            · intro u' _ _ ht hu'
              simp only [Option.some.injEq] at ht
              exact absurd ht.symm hu'
            · intro i0 rest0 _ _ hopt hnull
              simp only [Option.some.injEq, JsValue.arr.injEq, List.cons.injEq] at hopt
              obtain ⟨h1, h2⟩ := hopt
              rw [hp, ← h1]
              rw [← h1] at hnull
              rcases i with _ | _ | _ | _ | _ | _ <;>
                simp [InstallationDataParser.parseSelected] at hnull ⊢
          · have he : u.isEmpty = false := by
              rcases h : u.isEmpty with _ | _
              · rfl
              · exact absurd ((String.isEmpty_iff u).mp h) hu
            have hp : InstallationDataParser.parse r (some u) =
                (match (i :: rest).find? (InstallationDataParser.matchesUnique u) with
                 | some found =>
                   .ok (InstallationDataParser.parseInstallation (fieldsOf found) r)
                 | none =>
                   .error { name := "Error"
                            message := "Installation with unique ID \"" ++ u ++
                              "\" not found" }) := by
              unfold InstallationDataParser.parse
              rw [hv, hin]
              simp only [he, Bool.not_false, if_true]
              rfl
            rcases hf : (i :: rest).find? (InstallationDataParser.matchesUnique u) with _ | j
            · rw [hf] at hp
              refine ⟨?_, ?_, ?_⟩
              · rw [hp]
                simp [hu, hf, Except.isOk, Except.toBool]
              · intro u' i' l' ht _ _ hopt hf'
                simp only [Option.some.injEq] at ht
                subst ht
                simp only [Option.some.injEq, JsValue.arr.injEq] at hopt
                subst hopt
                rw [hf'] at hf
                cases hf
              · intro i0 rest0 ht _ _ _
                rcases ht with ht | ht
                · cases ht
                · simp only [Option.some.injEq] at ht
                  exact absurd ht hu
            · rw [hf] at hp
              refine ⟨?_, ?_, ?_⟩
              · rw [hp]
                refine iff_of_true rfl ⟨hv, i :: rest, rfl, by simp, ?_⟩
                show if u ≠ "" then
                    (∃ i0, List.find? (InstallationDataParser.matchesUnique u) (i :: rest)
                      = some i0)
                  else (i :: rest).headD JsValue.null ≠ JsValue.null
                rw [if_pos hu]
                exact ⟨j, hf⟩
              · intro u' i' l' ht _ _ hopt hf'
                simp only [Option.some.injEq] at ht
                subst ht
                simp only [Option.some.injEq, JsValue.arr.injEq] at hopt
                subst hopt
                rw [hf'] at hf
                simp only [Option.some.injEq] at hf
                rw [hf]
                exact hp
              · intro i0 rest0 ht _ _ _
                rcases ht with ht | ht
                · cases ht
                · simp only [Option.some.injEq] at ht
                  exact absurd ht hu
    all_goals {
      have hp : InstallationDataParser.parse r t =
          .error { name := "Error", message := "No installations found in response" } := by
        unfold InstallationDataParser.parse
        rw [hv, hin]
        rfl
      refine ⟨?_, ?_, ?_⟩
      · rw [hp]
        simp [Except.isOk, Except.toBool]
      · intro u i l _ _ _ hopt _
        simp at hopt
      · intro i rest _ _ hopt
        simp at hopt }
  · have hv' : InstallationDataParser.isValidResponse r = false := by
      simpa using hv
    have hp : InstallationDataParser.parse r t =
        .error { name := "Error"
                 message := "Invalid getInstallationData response: missing required fields" } := by
      unfold InstallationDataParser.parse
      rw [hv']
      rfl
    refine ⟨?_, ?_, ?_⟩
    · rw [hp]
      simp [Except.isOk, Except.toBool, hv']
    · intro u i l _ _ hvt
      rw [hvt] at hv'
      cases hv'
    · intro i rest _ hvt
      rw [hvt] at hv'
      cases hv'


/-- C8 amended witness: a valid response with one installation matching the
supplied targetUnique parses successfully to that installation. -/
theorem parse_returns_iff_witness :
    InstallationDataParser.parse
        (.obj [("data", .obj [("user",
          .obj [("installs", .arr [.obj [("unique", .str "A")]])])])])
        (some "A") =
      .ok (InstallationDataParser.parseInstallation [("unique", JsValue.str "A")]
        (.obj [("data", .obj [("user",
          .obj [("installs", .arr [.obj [("unique", .str "A")]])])])])) :=
  (parse_returns_iff
      (.obj [("data", .obj [("user",
        .obj [("installs", .arr [.obj [("unique", .str "A")]])])])])
      (some "A")).2.1
    "A" (.obj [("unique", .str "A")]) [.obj [("unique", .str "A")]]
    rfl (by decide) rfl rfl rfl

/-- C9: the parsers are pure functions of the response — modelled without
any mutation of the input — and every successful result embeds the
untouched input itself in its `raw` field (likewise parseChannel embeds
its channel record). -/
theorem parsers_read_only_raw_embedding (r : JsValue) (t : Option String)
    (o : List (String × JsValue)) :
    (∀ d, InstallationDataParser.parse r t = .ok d → d.raw = r) ∧
    (∀ u, UserDataParser.parse r = .ok u → u.raw = r) ∧
    (InstallationDataParser.parseChannel o).raw = o := by
  refine ⟨?_, ?_, rfl⟩
  · intro d h
    unfold InstallationDataParser.parse at h
    split at h
    · exact Except.noConfusion h
    · split at h
      · split at h
        · exact Except.noConfusion h
        · split at h
          · split at h
            · split at h
              · injection h with h2
                subst h2
                rfl
              · exact Except.noConfusion h
            · unfold InstallationDataParser.parseSelected at h
              split at h
              · exact Except.noConfusion h
              · injection h with h2
                subst h2
                rfl
          · unfold InstallationDataParser.parseSelected at h
            split at h
            · exact Except.noConfusion h
            · injection h with h2
              subst h2
              rfl
      · exact Except.noConfusion h
  · intro u h
    unfold UserDataParser.parse at h
    split at h
    · exact Except.noConfusion h
    · split at h
      · exact Except.noConfusion h
      · injection h with h2
        subst h2
        rfl

/-- C9 witness: concrete getUserData and getInstallationData responses whose
parse results carry the input itself as `raw`. -/
theorem parsers_read_only_raw_embedding_witness :
    (InstallationDataParser.parseInstallation []
        (.obj [("data", .obj [("user", .obj [("installs", .arr [.obj []])])])])).raw =
      (.obj [("data", .obj [("user", .obj [("installs", .arr [.obj []])])])]) ∧
    ({ userId := "u1", email := none, userName := none, installations := []
       raw := (.obj [("success", .bool true),
         ("data", .obj [("user", .obj [("_id", .str "u1"), ("installs", .arr [])])])]) } :
        ParsedUserData).raw =
      (.obj [("success", .bool true),
        ("data", .obj [("user", .obj [("_id", .str "u1"), ("installs", .arr [])])])]) :=
  ⟨(parsers_read_only_raw_embedding
      (.obj [("data", .obj [("user", .obj [("installs", .arr [.obj []])])])]) none []).1
      (InstallationDataParser.parseInstallation []
        (.obj [("data", .obj [("user", .obj [("installs", .arr [.obj []])])])])) rfl,
   (parsers_read_only_raw_embedding
      (.obj [("success", .bool true),
        ("data", .obj [("user", .obj [("_id", .str "u1"), ("installs", .arr [])])])])
      none []).2.1
      { userId := "u1", email := none, userName := none, installations := []
        raw := (.obj [("success", .bool true),
          ("data", .obj [("user", .obj [("_id", .str "u1"), ("installs", .arr [])])])]) }
      rfl⟩

/-- The Object.entries loop redacts fields pointwise. -/
theorem redactSensitiveFields_eq_map (fs : List (String × JsValue)) :
    Logger.redactSensitiveFields fs =
      fs.map (fun kv => (kv.1, Logger.redactField kv.1 kv.2)) := by
  induction fs with
  | nil => simp [Logger.redactSensitiveFields]
  | cons kv fs ih =>
    obtain ⟨k, v⟩ := kv
    simp only [Logger.redactSensitiveFields, List.map_cons, ih]
    rfl

/-- Arrays are redacted elementwise. -/
theorem redactSensitiveList_eq_map (xs : List JsValue) :
    Logger.redactSensitiveList xs = xs.map Logger.redactSensitiveData := by
  induction xs with
  | nil => simp [Logger.redactSensitiveList]
  | cons x xs ih => simp only [Logger.redactSensitiveList, List.map_cons, ih]

/-- C10 counterexample: an empty string under the sensitive key "password"
is redacted to "[REDACTED]", not to "***", although its length 0 is at
most 4 — the claim's "length at most 4 becomes three stars" fails at
length 0. -/
theorem redact_empty_string_counterexample :
    Logger.redactSensitiveData (.obj [("password", .str "")]) =
      .obj [("password", .str "[REDACTED]")] ∧
    ("[REDACTED]" : String) ≠ "***" ∧ ("" : String).length ≤ 4 := by
  refine ⟨?_, by decide, by decide⟩
  have hk : Logger.isSensitiveKey "password" = true := by decide
  simp only [Logger.redactSensitiveData, redactSensitiveFields_eq_map, List.map_cons,
    List.map_nil]
  simp [Logger.redactField, hk, Logger.redactEntryValue]

/-- C10 amended: redactSensitiveData keeps primitives, recurses
elementwise into arrays and pointwise into objects; every entry whose key
contains a sensitive substring (the claim's list is contained in the
logger's) has its value replaced — non-empty strings of length at most 4
by "***", longer strings by their first 2 and last 2 characters around
"...", and empty strings as well as non-string values by "[REDACTED]" —
while entries with non-sensitive keys are kept, recursing into
object-typed values. -/
theorem redact_sensitive_data_characterization (fs : List (String × JsValue)) (k : String)
    (v : JsValue) (xs : List JsValue) :
    (claimSensitive k = true → Logger.isSensitiveKey k = true) ∧
    Logger.redactSensitiveData (.obj fs) =
      .obj (fs.map (fun kv => (kv.1, Logger.redactField kv.1 kv.2))) ∧
    Logger.redactSensitiveData (.arr xs) = .arr (xs.map Logger.redactSensitiveData) ∧
    (Logger.isSensitiveKey k = true → ∀ s : String, 1 ≤ s.length → s.length ≤ 4 →
      Logger.redactField k (.str s) = .str "***") ∧
    (Logger.isSensitiveKey k = true → ∀ s : String, 5 ≤ s.length →
      Logger.redactField k (.str s) =
        .str (s.take 2 ++ "..." ++ s.drop (s.length - 2))) ∧
    (Logger.isSensitiveKey k = true → Logger.redactField k (.str "") = .str "[REDACTED]") ∧
    (Logger.isSensitiveKey k = true → (∀ s, v ≠ .str s) →
      Logger.redactField k v = .str "[REDACTED]") ∧
    (Logger.isSensitiveKey k = false →
      Logger.redactField k v =
        (match v with
         | .obj _ => Logger.redactSensitiveData v
         | .arr _ => Logger.redactSensitiveData v
         | .null => Logger.redactSensitiveData v
         | _ => v)) ∧
    (∀ b : Bool, Logger.redactSensitiveData (.bool b) = .bool b) ∧
    (∀ q : ℚ, Logger.redactSensitiveData (.num q) = .num q) ∧
    (∀ s : String, Logger.redactSensitiveData (.str s) = .str s) ∧
    Logger.redactSensitiveData .null = .null := by
  refine ⟨?_, ?_, ?_, ?_, ?_, ?_, ?_, ?_, ?_, ?_, ?_, ?_⟩
  · intro h
    unfold claimSensitive at h
    unfold Logger.isSensitiveKey Logger.sensitiveKeys
    unfold claimSensitiveKeys at h
    simp only [List.any_cons, List.any_nil, Bool.or_eq_true, Bool.or_false] at h ⊢
    tauto
  · simp only [Logger.redactSensitiveData, redactSensitiveFields_eq_map]
  · simp only [Logger.redactSensitiveData, redactSensitiveList_eq_map]
  · intro hk s h1 h4
    have hs0 : s.length > 0 := h1
    unfold Logger.redactField
    rw [hk]
    simp only [if_true]
    unfold Logger.redactEntryValue
    show (if s.length > 0 then
        if s.length ≤ 4 then JsValue.str "***"
        else JsValue.str (s.take 2 ++ "..." ++ s.drop (s.length - 2))
      else JsValue.str "[REDACTED]") = JsValue.str "***"
    rw [if_pos hs0, if_pos h4]
  · intro hk s h5
    have hs0 : s.length > 0 := by omega
    have hs4 : ¬(s.length ≤ 4) := by omega
    unfold Logger.redactField
    rw [hk]
    simp only [if_true]
    unfold Logger.redactEntryValue
    show (if s.length > 0 then
        if s.length ≤ 4 then JsValue.str "***"
        else JsValue.str (s.take 2 ++ "..." ++ s.drop (s.length - 2))
      else JsValue.str "[REDACTED]") =
      JsValue.str (s.take 2 ++ "..." ++ s.drop (s.length - 2))
    rw [if_pos hs0, if_neg hs4]
  · intro hk
    unfold Logger.redactField
    rw [hk]
    simp only [if_true]
    rfl
  · intro hk hv
    unfold Logger.redactField
    rw [hk]
    simp only [if_true]
    rcases v with _ | _ | _ | s | _ | _
    case str => exact absurd rfl (hv s)
    all_goals rfl
  · intro hk
    unfold Logger.redactField
    rw [hk]
    simp only [Bool.false_eq_true, if_false]
  · intro b
    rfl
  · intro q
    rfl
  · intro s
    rfl
  · rfl

/-- C10 amended witness: concrete redactions for a short, a long, an empty
and a non-string sensitive value. -/
theorem redact_sensitive_data_characterization_witness :
    Logger.redactField "password" (.str "abc") = .str "***" ∧
    Logger.redactField "refresh_token" (.str "abcdef") = .str "ab...ef" ∧
    Logger.redactField "auth" (.num 5) = .str "[REDACTED]" ∧
    Logger.isSensitiveKey "Password123" = true := by
  refine ⟨?_, ?_, ?_, ?_⟩
  · exact (redact_sensitive_data_characterization [] "password" .null []).2.2.2.1
      (by decide) "abc" (by decide) (by decide)
  · have h := (redact_sensitive_data_characterization [] "refresh_token" .null []).2.2.2.2.1
      (by decide) "abcdef" (by decide)
    rw [h]
    rfl
  · exact (redact_sensitive_data_characterization [] "auth" (.num 5) []).2.2.2.2.2.2.1
      (by decide) (fun s h => JsValue.noConfusion h)
  · exact (redact_sensitive_data_characterization [] "Password123" .null []).1 (by decide)
